import Mathlib

/-
Verification of `src/update_vector_tile_layers.py`.

The script is straight-line orchestration of two vendor SDKs (arcpy and
the arcgis cloud API).  We embed it shallowly: the map document is a list
of layers, every vendor call is recorded as an `Event` in a trace, and
the behaviour of the opaque vendor calls (which layer object a path
yields, what a content search returns, which item an upload produces) is
supplied by an `Oracles` parameter.  Python exceptions are modelled
explicitly: the outcome of a fallible region is an argument of the
function that contains it, and `try/finally` semantics are reproduced in
`main`.
-/

namespace VTL

/-- A layer of the arcpy map document.  The script touches exactly the
`isGroupLayer` test and the `visible` attribute; `name` identifies the
layer. -/
structure Layer where
  name : String
  isGroupLayer : Bool
  visible : Bool
deriving DecidableEq, Repr

/-- The arcpy map document: an ordered list of layers. -/
structure MapDoc where
  layers : List Layer
deriving DecidableEq, Repr

/-- An AGOL content item (as returned by `gis.content.search`,
`gis.content.add` and `item.publish`). -/
structure Item where
  itemId : String
  title : String
deriving DecidableEq, Repr

/-- A Python exception value.  `bare` is the argument-less
`raise Exception` that `main` re-raises; `other` stands for any other
exception (vendor errors, etc.). -/
inductive PyErr where
  | bare : PyErr
  | other : String → PyErr
deriving DecidableEq, Repr

/-- One vendor-SDK call made by the script, in program order. -/
inductive Event where
  | openProject : String → Event
  | connect : String → Option String → Option String → Event
  | getGroup : String → Event
  | removeLayer : Layer → Event
  | makeFeatureLayer : String → String → Event
  | addDataFromPath : String → Event
  | addLayer : String → Event
  | toggleVisibility : Event
  | createPackage : String → String → Event
  | search : String → Event
  | deleteItem : Item → Event
  | addItem : String → String → String → Event
  | shareItem : Item → Bool → List String → Event
  | publishItem : Item → Event
  | log : String → Event
deriving DecidableEq, Repr

/-- A record written through LOGGER in `main`. -/
inductive LogRec where
  | debug : String → LogRec
  | exceptionLog : PyErr → LogRec
deriving DecidableEq, Repr

/-- The value a run of `main` produces: either the returned boolean or an
exception that escaped (Python lets an exception raised in a `finally`
block replace the pending return value). -/
inductive PyResult where
  | ret : Bool → PyResult
  | raised : PyErr → PyResult
deriving DecidableEq, Repr

/- CONSTANTS of the script (lines 30-71 of the source). -/

def ROOT_DIRECTORY : String := "D:\\jhth490\\projects\\mobile_suma"

/-- `os.environ.get('AGOL_USERNAME')` (line 34). -/
def USERNAME (env : String → Option String) : Option String :=
  env ("AGOL_USERNAME")

/-- `os.environ.get('AGOL_PASSWORD')` (line 35). -/
def PASSWORD (env : String → Option String) : Option String :=
  env ("AGOL_PASSWORD")

def APRX_PATH : String :=
  "D:\\jhth490\\projects\\mobile_suma\\mobile_suma_gis\\mobile_suma_gis.aprx"

def MAP : String := "collector_map"

def QDL_PATH : String := "\\\\dnr\\agency\\app_data_gis\\qdl\\core"

def AGOL : String := "https://www.arcgis.com"

def OWNER : String := "jhth490"

def GROUP_ID : String := "4154c84c38204236a0a633665f040976"

def SPATIAL_REFERENCE_LAYER : String :=
  "D:\\jhth490\\projects\\mobile_suma\\mobile_suma_gis\\mobile_suma_gis.gdb\\fc_set_spatial_reference"

def VECTOR_LAYERS : List (String × List String) :=
  [(("Transportation"),
    [("Transportation\\State Lands - Active Roads Group"),
     ("Transportation\\State Lands - Road Barriers")]),
   (("Topography"),
    [("Topography\\Contours 40, 200, 1000, 2000-foot (USGS DEM 10-meter)")]),
   (("State Lands Knowledge"),
    [("Forest Management\\State Lands Knowledge\\1 All State Lands Knowledge by category")])]

/-- `os.path.join(QDL_PATH, i + ".lyr")` (line 128). -/
def lyrPath (i : String) : String := QDL_PATH ++ ("\\") ++ i ++ (".lyr")

/-- The output path of `CreateVectorTilePackage_management` (line 137),
also the file uploaded by `gis.content.add` (line 162). -/
def vtpkPath (k : String) : String :=
  ("mobile_suma_gis/vector_tile_packages/") ++ k ++ (".vtpk")

/-- The AGOL query of line 149. -/
def searchQuery (k : String) : String :=
  ("owner:") ++ OWNER ++ (" AND title:") ++ k ++ (" AND group:") ++ GROUP_ID

/-- The description passed to `gis.content.add` (lines 160-161); the two
adjacent Python string literals concatenate without a space. -/
def descriptionFor (k : String) : String :=
  ("VTPK for the ") ++ k ++ (" grouplayer this layer is updated weekly.")

/-- `m.removeLayer(layer)`: removes the first matching layer. -/
def MapDoc.removeLayer (m : MapDoc) (l : Layer) : MapDoc :=
  ⟨m.layers.erase l⟩

/-- `m.addLayer(layer)` / `m.addDataFromPath(path)`: appends a layer. -/
def MapDoc.addLayer (m : MapDoc) (l : Layer) : MapDoc :=
  ⟨m.layers ++ [l]⟩

/-- Loop body of the first pass of `remove_all_layers` (lines 80-83):
remove the layer if it is a group layer, else do nothing. -/
def pass1Step (acc : MapDoc × List Event) (layer : Layer) : MapDoc × List Event :=
  if layer.isGroupLayer then
    (acc.1.removeLayer layer, acc.2 ++ [Event.removeLayer layer])
  else acc

/-- Loop body of the second pass of `remove_all_layers` (lines 87-89):
remove the layer unconditionally. -/
def pass2Step (acc : MapDoc × List Event) (layer : Layer) : MapDoc × List Event :=
  (acc.1.removeLayer layer, acc.2 ++ [Event.removeLayer layer])

/-- Lines 74-89: two passes over the map, first removing every group
layer (iterating over a snapshot of the layer list), then re-listing and
removing everything that remains.  Returns the resulting map together
with the `removeLayer` calls it made, in order. -/
def remove_all_layers (m : MapDoc) : MapDoc × List Event :=
  let pass1 := m.layers.foldl pass1Step (m, ([] : List Event))
  pass1.1.layers.foldl pass2Step pass1

/-- Lines 92-98: sets `layer.visible = True` on every layer of the map. -/
def turn_on_layers_in_map (m : MapDoc) : MapDoc :=
  ⟨m.layers.map (fun l => { l with visible := true })⟩

/- Lemmas about `remove_all_layers`. -/

theorem pass1Step_group (acc : MapDoc × List Event) (x : Layer) (hx : x.isGroupLayer = true) :
    pass1Step acc x = (acc.1.removeLayer x, acc.2 ++ [Event.removeLayer x]) := by
  simp [pass1Step, hx]

theorem pass1Step_plain (acc : MapDoc × List Event) (x : Layer) (hx : x.isGroupLayer = false) :
    pass1Step acc x = acc := by
  simp [pass1Step, hx]

theorem pass1_fold (L : List Layer) :
    ∀ (M : List Layer) (E : List Event),
      L.foldl pass1Step (⟨M⟩, E)
      = (⟨M.diff (L.filter (fun l => l.isGroupLayer))⟩,
         E ++ (L.filter (fun l => l.isGroupLayer)).map Event.removeLayer) := by
  induction L with
  | nil => intro M E; simp
  | cons x L ih =>
    intro M E
    cases hx : x.isGroupLayer with
    | true =>
      rw [List.foldl_cons, pass1Step_group _ _ hx]
      rw [show (MapDoc.removeLayer ⟨M⟩ x, E ++ [Event.removeLayer x])
            = ((⟨M.erase x⟩ : MapDoc), E ++ [Event.removeLayer x]) from rfl]
      rw [ih, List.filter_cons_of_pos (by simpa using hx), List.diff_cons]
      simp [List.append_assoc]
    | false =>
      rw [List.foldl_cons, pass1Step_plain _ _ hx,
        List.filter_cons_of_neg (by simp [hx])]
      exact ih M E

theorem pass2_fold (L : List Layer) :
    ∀ (M : List Layer) (E : List Event),
      L.foldl pass2Step (⟨M⟩, E)
      = (⟨M.diff L⟩, E ++ L.map Event.removeLayer) := by
  induction L with
  | nil => intro M E; simp
  | cons x L ih =>
    intro M E
    rw [List.foldl_cons]
    rw [show pass2Step (⟨M⟩, E) x
          = ((⟨M.erase x⟩ : MapDoc), E ++ [Event.removeLayer x]) from rfl]
    rw [ih, List.diff_cons]
    simp [List.append_assoc]

theorem diff_self_eq_nil (L : List Layer) : L.diff L = [] := by
  induction L with
  | nil => rfl
  | cons x L ih => simpa [List.diff_cons] using ih

/-- Closed form of `remove_all_layers`: the map is emptied, and the trace
is the group layers (in listing order) followed by whatever remained
after the first pass (in listing order). -/
theorem remove_all_layers_eq (m : MapDoc) :
    remove_all_layers m
    = (⟨[]⟩,
       (m.layers.filter (fun l => l.isGroupLayer)).map Event.removeLayer
       ++ (m.layers.diff (m.layers.filter (fun l => l.isGroupLayer))).map Event.removeLayer) := by
  obtain ⟨L⟩ := m
  simp only [remove_all_layers]
  rw [pass1_fold L L []]
  rw [show ((⟨L.diff (L.filter (fun l => l.isGroupLayer))⟩ : MapDoc),
        ([] : List Event) ++ (L.filter (fun l => l.isGroupLayer)).map Event.removeLayer).1.layers
      = L.diff (L.filter (fun l => l.isGroupLayer)) from rfl]
  rw [pass2_fold, diff_self_eq_nil]
  simp

theorem remove_all_layers_fst (m : MapDoc) : (remove_all_layers m).1 = ⟨[]⟩ := by
  rw [remove_all_layers_eq]

theorem count_diff_layers (a : Layer) :
    ∀ (l₂ l₁ : List Layer), (l₁.diff l₂).count a = l₁.count a - l₂.count a := by
  intro l₂
  induction l₂ with
  | nil => intro l₁; simp
  | cons b l₂ ih =>
    intro l₁
    rw [List.diff_cons, ih, List.count_erase, List.count_cons]
    rw [Nat.sub_sub, Nat.add_comm]

/-- No group layer survives the first pass of `remove_all_layers`. -/
theorem no_group_in_diff (L : List Layer) (l : Layer)
    (h : l ∈ L.diff (L.filter (fun x => x.isGroupLayer))) :
    l.isGroupLayer = false := by
  by_contra hg
  have hg' : l.isGroupLayer = true := by
    cases hgl : l.isGroupLayer
    · exact absurd hgl hg
    · rfl
  have hcount : (L.diff (L.filter (fun x => x.isGroupLayer))).count l = 0 := by
    rw [count_diff_layers, List.count_filter (by simpa using hg')]
    exact Nat.sub_self _
  have := List.count_pos_iff.mpr h
  omega

/-- The behaviour of the opaque vendor calls: which layer object
`addDataFromPath(SPATIAL_REFERENCE_LAYER)` yields, which layer a `.lyr`
file yields, what a content search returns, which item an upload creates
and which item publishing creates.  The script cannot observe or control
any of this; it is a parameter of the embedding. -/
structure Oracles where
  refLayer : Layer
  layerOfFile : String → Layer
  searchResults : String → List Item
  addedItem : String → Item
  publishedItem : Item → Item

/-- Loop body of the `for i in v` loop of lines 127-130: build a
`LayerFile` from the path and add it to the map. -/
def addLyrStep (o : Oracles) (acc : MapDoc × List Event) (i : String) : MapDoc × List Event :=
  (acc.1.addLayer (o.layerOfFile (lyrPath i)), acc.2 ++ [Event.addLayer (lyrPath i)])

/-- Body of the `for k, v in vector_layers.items()` loop of
`add_vector_tile_layers` (lines 117-176), acting on the current map and
the trace accumulated so far. -/
def processPackage (o : Oracles) (acc : MapDoc × List Event) (k : String) (v : List String) :
    MapDoc × List Event :=
  let e1 := acc.2 ++ [Event.makeFeatureLayer SPATIAL_REFERENCE_LAYER ("spatial_reference_layer")]
  let m1 := acc.1.addLayer o.refLayer
  let e2 := e1 ++ [Event.addDataFromPath SPATIAL_REFERENCE_LAYER]
  let s := v.foldl (addLyrStep o) (m1, e2)
  let m2 := turn_on_layers_in_map s.1
  let e3 := s.2 ++ [Event.toggleVisibility,
                    Event.createPackage (vtpkPath k) ("ONLINE"),
                    Event.search (searchQuery k)]
  let res := o.searchResults (searchQuery k)
  let e4 := e3 ++ (if 0 < res.length then res.map Event.deleteItem
                   else [Event.log ("No items to delete from agol.")])
  let vtpk := o.addedItem (vtpkPath k)
  let e5 := e4 ++ [Event.addItem (descriptionFor k) (vtpkPath k) ("vector_tiles"),
                   Event.shareItem vtpk true [GROUP_ID],
                   Event.publishItem vtpk,
                   Event.shareItem (o.publishedItem vtpk) true [GROUP_ID]]
  let r := remove_all_layers m2
  (r.1, e5 ++ r.2)

/-- The `for k, v in vector_layers.items()` loop itself. -/
def addLoop (o : Oracles) (pkgs : List (String × List String)) (acc : MapDoc × List Event) :
    MapDoc × List Event :=
  pkgs.foldl (fun a kv => processPackage o a kv.1 kv.2) acc

/-- Lines 101-176: open the project, take the map named `MAP`, connect to
AGOL with the environment credentials, remove all layers, fetch the AGOL
group, then run the per-package loop.  `m0` is the content the map had
when the project was opened. -/
def add_vector_tile_layers (env : String → Option String) (o : Oracles) (m0 : MapDoc)
    (vector_layers : List (String × List String)) : MapDoc × List Event :=
  let e0 := [Event.openProject APRX_PATH, Event.connect AGOL (USERNAME env) (PASSWORD env)]
  let r := remove_all_layers m0
  addLoop o vector_layers (r.1, e0 ++ r.2 ++ [Event.getGroup GROUP_ID])

/-- The vendor calls one iteration of the per-package loop makes, when
the map holds `L` on entry to the iteration. -/
def packageEvents (o : Oracles) (k : String) (v : List String) (L : List Layer) : List Event :=
  [Event.makeFeatureLayer SPATIAL_REFERENCE_LAYER ("spatial_reference_layer"),
   Event.addDataFromPath SPATIAL_REFERENCE_LAYER]
  ++ v.map (fun i => Event.addLayer (lyrPath i))
  ++ [Event.toggleVisibility,
      Event.createPackage (vtpkPath k) ("ONLINE"),
      Event.search (searchQuery k)]
  ++ (if 0 < (o.searchResults (searchQuery k)).length then
        (o.searchResults (searchQuery k)).map Event.deleteItem
      else [Event.log ("No items to delete from agol.")])
  ++ [Event.addItem (descriptionFor k) (vtpkPath k) ("vector_tiles"),
      Event.shareItem (o.addedItem (vtpkPath k)) true [GROUP_ID],
      Event.publishItem (o.addedItem (vtpkPath k)),
      Event.shareItem (o.publishedItem (o.addedItem (vtpkPath k))) true [GROUP_ID]]
  ++ (remove_all_layers (turn_on_layers_in_map
        ⟨(L ++ [o.refLayer]) ++ v.map (fun i => o.layerOfFile (lyrPath i))⟩)).2

theorem addLyr_fold (o : Oracles) (v : List String) :
    ∀ (M : List Layer) (E : List Event),
      v.foldl (addLyrStep o) (⟨M⟩, E)
      = (⟨M ++ v.map (fun i => o.layerOfFile (lyrPath i))⟩,
         E ++ v.map (fun i => Event.addLayer (lyrPath i))) := by
  induction v with
  | nil => intro M E; simp
  | cons i v ih =>
    intro M E
    rw [List.foldl_cons]
    rw [show addLyrStep o (⟨M⟩, E) i
          = ((⟨M ++ [o.layerOfFile (lyrPath i)]⟩ : MapDoc), E ++ [Event.addLayer (lyrPath i)])
        from rfl]
    rw [ih]
    simp [List.append_assoc]

/-- One loop iteration leaves the map empty and appends
`packageEvents` to the trace. -/
theorem processPackage_eq (o : Oracles) (k : String) (v : List String) (m : MapDoc)
    (e : List Event) :
    processPackage o (m, e) k v = (⟨[]⟩, e ++ packageEvents o k v m.layers) := by
  obtain ⟨L⟩ := m
  simp only [processPackage]
  rw [show (MapDoc.addLayer ⟨L⟩ o.refLayer) = (⟨L ++ [o.refLayer]⟩ : MapDoc) from rfl]
  rw [addLyr_fold]
  rw [remove_all_layers_fst]
  simp only [packageEvents]
  simp [List.append_assoc]

theorem addLoop_events (o : Oracles) (pkgs : List (String × List String)) :
    ∀ (m : MapDoc) (e : List Event),
      addLoop o pkgs (m, e)
      = ((addLoop o pkgs (m, [])).1, e ++ (addLoop o pkgs (m, [])).2) := by
  induction pkgs with
  | nil => intro m e; simp [addLoop]
  | cons p rest ih =>
    intro m e
    simp only [addLoop, List.foldl_cons]
    rw [processPackage_eq, processPackage_eq]
    have h1 := ih (⟨[]⟩ : MapDoc) (e ++ packageEvents o p.1 p.2 m.layers)
    have h2 := ih (⟨[]⟩ : MapDoc) ([] ++ packageEvents o p.1 p.2 m.layers)
    simp only [addLoop] at h1 h2
    rw [h1, h2]
    simp [List.append_assoc]

theorem addLoop_fst_empty (o : Oracles) (pkgs : List (String × List String)) :
    ∀ (m : MapDoc) (e : List Event), m.layers = [] →
      ((addLoop o pkgs (m, e)).1).layers = [] := by
  induction pkgs with
  | nil => intro m e hm; simpa [addLoop] using hm
  | cons p rest ih =>
    intro m e _
    simp only [addLoop, List.foldl_cons]
    rw [processPackage_eq]
    exact ih _ _ rfl

/-- Modelled from the spec: the helper module `utilities` (logging setup,
a timing decorator, environment setup) is not part of the sources; per
the spec it only configures the arcpy environment and, per the spec's
interface section, reads no environment variables.  Its outcome (success
or an exception) is therefore an abstract parameter. -/
def setup_arcpy_environment (outcome : Option PyErr) : Option PyErr := outcome

/-- Everything a run of `main` produces: the returned value (or escaped
exception), the state of the map manipulated by the `finally` block, the
vendor calls the `finally` block made, the vendor calls the pipeline
made, and the log records `main` itself wrote. -/
structure MainOut where
  result : PyResult
  cleanupMap : MapDoc
  cleanupEvents : List Event
  pipelineEvents : List Event
  log : List LogRec
deriving Repr

/-- Lines 179-202.  `setupFail` is the outcome of
`utilities.setup_arcpy_environment()`; `pipeFail` is `some` (the raised
exception and the partial trace it left) when `add_vector_tile_layers`
raises; `mClean` is the map found when the `finally` block re-opens the
project; `cleanupFail` is `some` (the exception and the map state left
behind) when a call inside the `finally` block raises.  Per Python
semantics an exception in a `finally` block replaces the pending return
value. -/
def main (env : String → Option String) (o : Oracles) (m0 : MapDoc)
    (setupFail : Option PyErr) (pipeFail : Option (PyErr × List Event))
    (mClean : MapDoc) (cleanupFail : Option (PyErr × MapDoc)) : MainOut :=
  let body : Bool × List LogRec × List Event :=
    match setup_arcpy_environment setupFail with
    | some _ =>
        (false,
         [LogRec.debug ("Unable to set arcpy environment"), LogRec.exceptionLog PyErr.bare],
         [])
    | none =>
        match pipeFail with
        | some ep =>
            (false,
             [LogRec.debug ("Failed to excecute add_vector_tile_layer function"),
              LogRec.exceptionLog PyErr.bare],
             ep.2)
        | none => (true, [], (add_vector_tile_layers env o m0 VECTOR_LAYERS).2)
  match cleanupFail with
  | none =>
      { result := PyResult.ret body.1,
        cleanupMap := (remove_all_layers mClean).1,
        cleanupEvents := Event.openProject APRX_PATH :: (remove_all_layers mClean).2,
        pipelineEvents := body.2.2,
        log := body.2.1 }
  | some em =>
      { result := PyResult.raised em.1,
        cleanupMap := em.2,
        cleanupEvents := [Event.openProject APRX_PATH],
        pipelineEvents := body.2.2,
        log := body.2.1 }

/-- The map held by `add_vector_tile_layers`'s map object at the start of
iteration `i` of the per-package loop: the state after the initial
`remove_all_layers` and the first `i` loop iterations. -/
def mapAtIterStart (o : Oracles) (m0 : MapDoc) (pkgs : List (String × List String))
    (i : Nat) : MapDoc :=
  (addLoop o (pkgs.take i) ((remove_all_layers m0).1, [])).1

/-- Erase the credential payload of a `connect` event, leave every other
event unchanged. -/
def scrubCreds (e : Event) : Event :=
  match e with
  | Event.connect url _ _ => Event.connect url none none
  | e => e

/-- Recognise an AGOL item deletion. -/
def isDeleteEvent (e : Event) : Bool :=
  match e with
  | Event.deleteItem _ => true
  | _ => false

/-- The full trace of `add_vector_tile_layers`: project open, AGOL
connection, the initial layer removal, the group lookup, then the loop
trace starting from the emptied map. -/
theorem add_trace_decomp (env : String → Option String) (o : Oracles) (m0 : MapDoc)
    (pkgs : List (String × List String)) :
    add_vector_tile_layers env o m0 pkgs
    = ((addLoop o pkgs ((remove_all_layers m0).1, [])).1,
       Event.openProject APRX_PATH
         :: Event.connect AGOL (USERNAME env) (PASSWORD env)
         :: ((remove_all_layers m0).2 ++ [Event.getGroup GROUP_ID]
             ++ (addLoop o pkgs ((remove_all_layers m0).1, [])).2)) := by
  simp only [add_vector_tile_layers]
  rw [addLoop_events]
  simp [List.append_assoc]

theorem addLoop_events_mono (o : Oracles) (pkgs : List (String × List String))
    (m : MapDoc) (e : List Event) (x : Event) (hx : x ∈ e) :
    x ∈ (addLoop o pkgs (m, e)).2 := by
  rw [addLoop_events]
  exact List.mem_append_left _ hx

/-- Any event of the canonical segment of a package that the loop
processes occurs in the loop's trace. -/
theorem mem_addLoop (o : Oracles) (x : Event) :
    ∀ (pkgs : List (String × List String)) (e : List Event) (k : String) (v : List String),
      (k, v) ∈ pkgs → x ∈ packageEvents o k v [] →
      x ∈ (addLoop o pkgs ((⟨[]⟩ : MapDoc), e)).2 := by
  intro pkgs
  induction pkgs with
  | nil =>
    intro e k v h _
    exact absurd h (List.not_mem_nil _)
  | cons q rest ih =>
    intro e k v hmem hx
    obtain ⟨k', v'⟩ := q
    simp only [addLoop, List.foldl_cons]
    rw [processPackage_eq]
    rcases List.mem_cons.mp hmem with heq | hrest
    · injection heq with hk hv
      subst hk; subst hv
      exact addLoop_events_mono o rest _ _ x (List.mem_append_right _ hx)
    · exact ih _ k v hrest hx

/- Concrete instances used by counterexamples and witnesses. -/

def demoEnv : String → Option String := fun s =>
  if s = ("AGOL_USERNAME") then some ("user1")
  else if s = ("AGOL_PASSWORD") then some ("pw1")
  else none

/-- Agrees with `demoEnv` on the two credential variables, differs
everywhere else. -/
def demoEnv2 : String → Option String := fun s =>
  if s = ("AGOL_USERNAME") then some ("user1")
  else if s = ("AGOL_PASSWORD") then some ("pw1")
  else some ("unrelated variable")

def demoOracles : Oracles :=
  { refLayer := ⟨("spatial_reference"), false, true⟩,
    layerOfFile := fun p => ⟨p, false, false⟩,
    searchResults := fun _ => [],
    addedItem := fun p => ⟨p, p⟩,
    publishedItem := fun it => ⟨("pub_") ++ it.itemId, it.title⟩ }

def demoPkgs : List (String × List String) := [(("T1"), ([] : List String))]

def demoTrace : List Event :=
  (add_vector_tile_layers demoEnv demoOracles ⟨[]⟩ demoPkgs).2

def demoVtpk : Item := demoOracles.addedItem (vtpkPath ("T1"))

/-- C1: when the `finally` block completes, `main` returns True exactly
when both the environment setup and the pipeline succeed and False when
either fails; both failure classes produce the same returned value
(`False`) and log the same bare exception, so the returned value carries
no information distinguishing them. -/
theorem C1_main_boolean_collapse (env : String → Option String) (o : Oracles)
    (m0 mClean : MapDoc) (e1 e2 : PyErr) (tr : List Event) :
    (main env o m0 none none mClean none).result = PyResult.ret true
    ∧ (main env o m0 (some e1) none mClean none).result = PyResult.ret false
    ∧ (main env o m0 none (some (e2, tr)) mClean none).result = PyResult.ret false
    ∧ (main env o m0 (some e1) none mClean none).log.getLast?
        = some (LogRec.exceptionLog PyErr.bare)
    ∧ (main env o m0 none (some (e2, tr)) mClean none).log.getLast?
        = some (LogRec.exceptionLog PyErr.bare)
    ∧ (main env o m0 (some e1) none mClean none).result
        = (main env o m0 none (some (e2, tr)) mClean none).result :=
  ⟨rfl, rfl, rfl, rfl, rfl, rfl⟩

/-- C2 (counterexample): with an exception arising inside the `finally`
block cleanup, `main` does not return its boolean at all: the very same
run that returns True with a clean cleanup instead propagates the
cleanup exception, so a cleanup failure is not silent and does change
the outcome. -/
theorem C2_cleanup_failure_counterexample :
    (main demoEnv demoOracles (MapDoc.mk []) none none (MapDoc.mk []) none).result
      = PyResult.ret true
    ∧ (main demoEnv demoOracles (MapDoc.mk []) none none (MapDoc.mk [])
         (some (PyErr.other ("cleanup boom"), MapDoc.mk []))).result
      = PyResult.raised (PyErr.other ("cleanup boom")) :=
  ⟨rfl, rfl⟩

/-- C2 (amended): the `finally`-block cleanup runs on every execution of
`main` and behaves identically whether the body succeeded or raised;
when the cleanup itself succeeds the boolean result passes through
unchanged, but an exception inside the cleanup propagates out of `main`,
replacing the boolean result. -/
theorem C2_finally_cleanup (env : String → Option String) (o : Oracles) (m0 mClean : MapDoc)
    (s1 s2 : Option PyErr) (p1 p2 : Option (PyErr × List Event))
    (c : Option (PyErr × MapDoc)) (e : PyErr) (mp : MapDoc) :
    Event.openProject APRX_PATH ∈ (main env o m0 s1 p1 mClean c).cleanupEvents
    ∧ (main env o m0 s1 p1 mClean c).cleanupEvents
        = (main env o m0 s2 p2 mClean c).cleanupEvents
    ∧ (main env o m0 s1 p1 mClean c).cleanupMap
        = (main env o m0 s2 p2 mClean c).cleanupMap
    ∧ (main env o m0 s1 p1 mClean (some (e, mp))).result = PyResult.raised e := by
  refine ⟨?_, ?_, ?_, rfl⟩
  · cases c with
    | none => exact List.mem_cons_self _ _
    | some em => exact List.mem_cons_self _ _
  · cases c with
    | none => rfl
    | some em => rfl
  · cases c with
    | none => rfl
    | some em => rfl

/-- C4: whenever `main` returns its boolean (the cleanup did not raise),
the map re-opened by the `finally` block holds no layers; and when the
cleanup raises, `main` does not return a boolean at all but propagates
that exception. -/
theorem C4_map_empty_after_main (env : String → Option String) (o : Oracles)
    (m0 mClean : MapDoc) (s : Option PyErr) (p : Option (PyErr × List Event)) :
    (main env o m0 s p mClean none).cleanupMap.layers = []
    ∧ (∃ b : Bool, (main env o m0 s p mClean none).result = PyResult.ret b)
    ∧ ∀ (e : PyErr) (mp : MapDoc),
        (main env o m0 s p mClean (some (e, mp))).result = PyResult.raised e := by
  refine ⟨?_, ?_, fun e mp => rfl⟩
  · show (remove_all_layers mClean).1.layers = []
    rw [remove_all_layers_fst]
  · cases s with
    | some e => exact ⟨false, rfl⟩
    | none =>
      cases p with
      | some ep => exact ⟨false, rfl⟩
      | none => exact ⟨true, rfl⟩

/-- C5: at the start of every iteration of the per-package loop of
`add_vector_tile_layers`, the map contains no layers. -/
theorem C5_map_empty_at_iteration_start (o : Oracles) (m0 : MapDoc)
    (pkgs : List (String × List String)) (i : Nat) :
    (mapAtIterStart o m0 pkgs i).layers = [] := by
  exact addLoop_fst_empty o (pkgs.take i) _ _ (by rw [remove_all_layers_fst])

/-- C9: `remove_all_layers` first removes exactly the group layers of
the map, in listing order, then removes the remaining layers, none of
which is a group layer; afterwards the map's layer list is empty. -/
theorem C9_remove_all_layers_order (m : MapDoc) :
    (remove_all_layers m).1.layers = []
    ∧ (remove_all_layers m).2
        = (m.layers.filter (fun l => l.isGroupLayer)).map Event.removeLayer
          ++ (m.layers.diff (m.layers.filter (fun l => l.isGroupLayer))).map Event.removeLayer
    ∧ (m.layers.diff (m.layers.filter (fun l => l.isGroupLayer))).all
        (fun l => !(l.isGroupLayer)) = true := by
  refine ⟨by rw [remove_all_layers_fst], by rw [remove_all_layers_eq], ?_⟩
  rw [List.all_eq_true]
  intro l hl
  have hng := no_group_in_diff m.layers l hl
  simp [hng]

/-- C10: `turn_on_layers_in_map` makes every layer of the map visible
and changes nothing else: the number, order, names and group flags of
the layers are unchanged. -/
theorem C10_turn_on_layers_frame (m : MapDoc) :
    (turn_on_layers_in_map m).layers.length = m.layers.length
    ∧ (turn_on_layers_in_map m).layers.map (fun l => l.name)
        = m.layers.map (fun l => l.name)
    ∧ (turn_on_layers_in_map m).layers.map (fun l => l.isGroupLayer)
        = m.layers.map (fun l => l.isGroupLayer)
    ∧ (turn_on_layers_in_map m).layers.all (fun l => l.visible) = true := by
  refine ⟨?_, ?_, ?_, ?_⟩ <;>
    simp [turn_on_layers_in_map, List.map_map, Function.comp]

/-- The per-package call order asserted by the amended claim C3: remove
happens between iterations (the map is empty on entry), then make the
spatial-reference feature layer, add it to the map, add the package's
data layers, toggle visibility, create the tile package, search AGOL,
delete any found items (or log that none exist), upload the new package,
share the uploaded package, publish it as a hosted tile layer, share the
published layer, and finally remove all layers from the map. -/
def claimedPackageOrder (o : Oracles) (k : String) (v : List String) : List Event :=
  [Event.makeFeatureLayer SPATIAL_REFERENCE_LAYER ("spatial_reference_layer"),
   Event.addDataFromPath SPATIAL_REFERENCE_LAYER]
  ++ v.map (fun i => Event.addLayer (lyrPath i))
  ++ [Event.toggleVisibility,
      Event.createPackage (vtpkPath k) ("ONLINE"),
      Event.search (searchQuery k)]
  ++ (match o.searchResults (searchQuery k) with
      | [] => [Event.log ("No items to delete from agol.")]
      | items => items.map Event.deleteItem)
  ++ [Event.addItem (descriptionFor k) (vtpkPath k) ("vector_tiles"),
      Event.shareItem (o.addedItem (vtpkPath k)) true [GROUP_ID],
      Event.publishItem (o.addedItem (vtpkPath k)),
      Event.shareItem (o.publishedItem (o.addedItem (vtpkPath k))) true [GROUP_ID]]
  ++ (remove_all_layers (turn_on_layers_in_map
        ⟨o.refLayer :: v.map (fun i => o.layerOfFile (lyrPath i))⟩)).2

/-- C3 (counterexample): on a concrete run the uploaded package is
shared before anything is published, so "publish precedes share for each
item" fails: the share of the uploaded tile package occurs strictly
before the publish call, and that share occurs exactly once. -/
theorem C3_share_before_publish_counterexample :
    demoTrace.indexOf (Event.shareItem demoVtpk true [GROUP_ID])
        < demoTrace.indexOf (Event.publishItem demoVtpk)
    ∧ Event.shareItem demoVtpk true [GROUP_ID] ∈ demoTrace
    ∧ Event.publishItem demoVtpk ∈ demoTrace
    ∧ demoTrace.count (Event.shareItem demoVtpk true [GROUP_ID]) = 1 := by
  decide

/-- C3 (amended): starting from the empty map each iteration leaves
behind, one loop iteration performs the vendor calls in exactly this
order: make and add the spatial-reference layer, add the package's data
layers, toggle every layer visible, create the tile package, search AGOL
for matching items, delete any found, upload the new package, share the
uploaded package, publish it as a hosted tile layer, share the published
layer, then remove all layers; the published layer's share follows its
publish, but the uploaded package is shared before publish. -/
theorem C3_package_call_order (o : Oracles) (k : String) (v : List String) :
    (processPackage o ((⟨[]⟩ : MapDoc), []) k v).2 = claimedPackageOrder o k v := by
  rw [processPackage_eq]
  simp only [claimedPackageOrder, packageEvents]
  cases hres : o.searchResults (searchQuery k) with
  | nil => simp [hres]
  | cons a as => simp [hres]

/-- C6: the script reads the environment only through `AGOL_USERNAME`
and `AGOL_PASSWORD`: two environments agreeing on those two keys give
identical pipeline runs and identical `main` outcomes; and the
credentials influence only the AGOL connection call, since scrubbing the
connection event's credential payload makes the trace independent of the
environment altogether. -/
theorem C6_env_only_credentials (env1 env2 : String → Option String) (o : Oracles)
    (m0 mClean : MapDoc) (s : Option PyErr) (p : Option (PyErr × List Event))
    (c : Option (PyErr × MapDoc))
    (h1 : env1 ("AGOL_USERNAME") = env2 ("AGOL_USERNAME"))
    (h2 : env1 ("AGOL_PASSWORD") = env2 ("AGOL_PASSWORD")) :
    add_vector_tile_layers env1 o m0 VECTOR_LAYERS
      = add_vector_tile_layers env2 o m0 VECTOR_LAYERS
    ∧ main env1 o m0 s p mClean c = main env2 o m0 s p mClean c
    ∧ ∀ (f g : String → Option String),
        (add_vector_tile_layers f o m0 VECTOR_LAYERS).2.map scrubCreds
          = (add_vector_tile_layers g o m0 VECTOR_LAYERS).2.map scrubCreds := by
  have hadd : add_vector_tile_layers env1 o m0 VECTOR_LAYERS
      = add_vector_tile_layers env2 o m0 VECTOR_LAYERS := by
    rw [add_trace_decomp, add_trace_decomp]
    simp only [USERNAME, PASSWORD]
    rw [h1, h2]
  refine ⟨hadd, ?_, ?_⟩
  · cases c <;> cases s <;> cases p <;> simp [main, hadd]
  · intro f g
    rw [add_trace_decomp, add_trace_decomp]
    simp [scrubCreds]

/-- C6 (witness): two concrete environments agreeing only on the two
credential variables produce the same pipeline run. -/
theorem C6_env_only_credentials_witness :
    add_vector_tile_layers demoEnv demoOracles (MapDoc.mk []) VECTOR_LAYERS
      = add_vector_tile_layers demoEnv2 demoOracles (MapDoc.mk []) VECTOR_LAYERS :=
  (C6_env_only_credentials demoEnv demoEnv2 demoOracles (MapDoc.mk []) (MapDoc.mk [])
    none none none (by decide) (by decide)).1

/-- C7: for every key `k` of the dictionary the run hands to the loop,
the trace creates the local tile package named `k` with the `.vtpk`
extension, uploads it (yielding the item the vendor derives from that
file), publishes that item, and shares both the uploaded item and the
published item with the organization and the group `GROUP_ID`. -/
theorem C7_outputs_per_key (env : String → Option String) (o : Oracles) (m0 : MapDoc)
    (pkgs : List (String × List String)) (k : String) (v : List String)
    (h : (k, v) ∈ pkgs) :
    Event.createPackage (vtpkPath k) ("ONLINE") ∈ (add_vector_tile_layers env o m0 pkgs).2
    ∧ Event.addItem (descriptionFor k) (vtpkPath k) ("vector_tiles")
        ∈ (add_vector_tile_layers env o m0 pkgs).2
    ∧ Event.shareItem (o.addedItem (vtpkPath k)) true [GROUP_ID]
        ∈ (add_vector_tile_layers env o m0 pkgs).2
    ∧ Event.publishItem (o.addedItem (vtpkPath k)) ∈ (add_vector_tile_layers env o m0 pkgs).2
    ∧ Event.shareItem (o.publishedItem (o.addedItem (vtpkPath k))) true [GROUP_ID]
        ∈ (add_vector_tile_layers env o m0 pkgs).2 := by
  have key : ∀ x : Event, x ∈ packageEvents o k v [] →
      x ∈ (add_vector_tile_layers env o m0 pkgs).2 := by
    intro x hx
    simp only [add_vector_tile_layers]
    rw [remove_all_layers_fst]
    exact mem_addLoop o x pkgs _ k v h hx
  refine ⟨key _ ?_, key _ ?_, key _ ?_, key _ ?_, key _ ?_⟩ <;>
    simp [packageEvents]

/-- C7 (witness): the Transportation package of the hardcoded dictionary
gets its tile package created on a concrete run. -/
theorem C7_outputs_per_key_witness :
    Event.createPackage (vtpkPath ("Transportation")) ("ONLINE")
      ∈ (add_vector_tile_layers demoEnv demoOracles (MapDoc.mk []) VECTOR_LAYERS).2 :=
  (C7_outputs_per_key demoEnv demoOracles (MapDoc.mk []) VECTOR_LAYERS
    ("Transportation")
    [("Transportation\\State Lands - Active Roads Group"),
     ("Transportation\\State Lands - Road Barriers")]
    (by decide)).1

/-- C8: in one loop iteration, the deletion calls are exactly one per
item returned by the AGOL search (in order) and all occur before the
upload of the new package; in particular when the search returns no
items, no delete call is made at all. -/
theorem C8_delete_before_upload (o : Oracles) (k : String) (v : List String) (m : MapDoc) :
    ∃ l₁ l₃,
      (processPackage o (m, []) k v).2
        = l₁ ++ (o.searchResults (searchQuery k)).map Event.deleteItem ++ l₃
      ∧ Event.addItem (descriptionFor k) (vtpkPath k) ("vector_tiles") ∈ l₃
      ∧ l₁.all (fun x => !(isDeleteEvent x)) = true
      ∧ l₃.all (fun x => !(isDeleteEvent x)) = true := by
  rw [processPackage_eq]
  cases hres : o.searchResults (searchQuery k) with
  | nil =>
    refine ⟨[Event.makeFeatureLayer SPATIAL_REFERENCE_LAYER ("spatial_reference_layer"),
             Event.addDataFromPath SPATIAL_REFERENCE_LAYER]
            ++ v.map (fun i => Event.addLayer (lyrPath i))
            ++ [Event.toggleVisibility,
                Event.createPackage (vtpkPath k) ("ONLINE"),
                Event.search (searchQuery k),
                Event.log ("No items to delete from agol.")],
           [Event.addItem (descriptionFor k) (vtpkPath k) ("vector_tiles"),
            Event.shareItem (o.addedItem (vtpkPath k)) true [GROUP_ID],
            Event.publishItem (o.addedItem (vtpkPath k)),
            Event.shareItem (o.publishedItem (o.addedItem (vtpkPath k))) true [GROUP_ID]]
           ++ (remove_all_layers (turn_on_layers_in_map
                 ⟨(m.layers ++ [o.refLayer]) ++ v.map (fun i => o.layerOfFile (lyrPath i))⟩)).2,
           ?_, ?_, ?_, ?_⟩
    · simp [packageEvents, hres, List.append_assoc]
    · simp
    · simp [isDeleteEvent, Function.comp]
    · simp [isDeleteEvent, Function.comp, remove_all_layers_eq]
      intro x l hl hg hx
      subst hx
      rfl
  | cons a as =>
    refine ⟨[Event.makeFeatureLayer SPATIAL_REFERENCE_LAYER ("spatial_reference_layer"),
             Event.addDataFromPath SPATIAL_REFERENCE_LAYER]
            ++ v.map (fun i => Event.addLayer (lyrPath i))
            ++ [Event.toggleVisibility,
                Event.createPackage (vtpkPath k) ("ONLINE"),
                Event.search (searchQuery k)],
           [Event.addItem (descriptionFor k) (vtpkPath k) ("vector_tiles"),
            Event.shareItem (o.addedItem (vtpkPath k)) true [GROUP_ID],
            Event.publishItem (o.addedItem (vtpkPath k)),
            Event.shareItem (o.publishedItem (o.addedItem (vtpkPath k))) true [GROUP_ID]]
           ++ (remove_all_layers (turn_on_layers_in_map
                 ⟨(m.layers ++ [o.refLayer]) ++ v.map (fun i => o.layerOfFile (lyrPath i))⟩)).2,
           ?_, ?_, ?_, ?_⟩
    · simp [packageEvents, hres, List.append_assoc]
    · simp
    · simp [isDeleteEvent, Function.comp]
    · simp [isDeleteEvent, Function.comp, remove_all_layers_eq]
      intro x l hl hg hx
      subst hx
      rfl

end VTL
